import Mathlib

/-!
Shallow embedding of `api/telegram.js`, a Vercel serverless handler that
relays a form submission to the Telegram bot API: it rejects non-POST
requests, requires the `BOT_TOKEN` and `CHAT_ID` environment secrets,
builds an HTML text summary, sends it via `sendMessage`, and then
best-effort forwards up to two attachments (`foto_ktp_url`,
`surat_keterangan_url`), each either a base64 data URL (decoded and
uploaded as multipart) or a remote URL (passed through by reference).

The embedding records the outbound Telegram calls the handler issues as an
explicit list, and models host effects (current time, `id-ID` locale date
formatting, network failure of the summary send) through a `Host` oracle.
Every outbound call goes to `https://api.telegram.org/bot<BOT_TOKEN>/<method>`;
the call records carry the method name and the request parameters, the
constant URL prefix and the token are left implicit.
-/

namespace Telegram

/-- JS truthiness of an optional string value (`process.env` entry or a
payload field): `undefined`/`null` and the empty string are falsy, any
other string is truthy. -/
def truthyOpt : Option String → Bool
  | none => false
  | some s => s ≠ ""

/-- Request body fields, all optional, mirroring the destructuring defaults
in the handler. `none` models an absent (or `undefined`/`null`) property. -/
structure Payload where
  nama_lengkap : Option String
  nik : Option String
  tempat_lahir : Option String
  tanggal_lahir : Option String
  alamat : Option String
  no_telepon : Option String
  email : Option String
  alasan : Option String
  foto_ktp_url : Option String
  surat_keterangan_url : Option String
  tanggal_pengajuan : Option String
  status : Option String
deriving DecidableEq

/-- The payload with every field absent; `req.body || {}` falls back to it. -/
def emptyPayload : Payload :=
  ⟨none, none, none, none, none, none, none, none, none, none, none, none⟩

/-- An inbound HTTP request: its method and its (possibly absent) JSON body. -/
structure Req where
  method : String
  body : Option Payload
deriving DecidableEq

/-- The two environment secrets read from `process.env`. -/
structure Env where
  BOT_TOKEN : Option String
  CHAT_ID : Option String
deriving DecidableEq

/-- Host-environment oracle for the effects the handler consumes:
`nowISO` models `new Date().toISOString()`;
`toLocaleStringIdID s` models `new Date(s).toLocaleString('id-ID')`;
`sendMessageThrows` models the summary-send `fetch` (or its `.json()`)
throwing, which escapes to the top-level catch;
`sendMessageOk` models the `ok` flag of the parsed `sendMessage` response
body (protocol-level success). -/
structure Host where
  nowISO : String
  toLocaleStringIdID : String → String
  sendMessageThrows : Bool
  sendMessageOk : Bool

/-- One outbound call to the Telegram bot API.
`sendMessage` is the JSON summary message;
`upload` is a multipart form upload via `uploadFile` (buffer carried as its
base64 source text, see `ParsedDataUrl`);
`sendByUrl` is a JSON by-reference call whose `jsonField` (`photo` or
`document`) holds the remote URL. -/
inductive Call where
  | sendMessage (chat_id text parse_mode : String)
      (disable_web_page_preview : Bool)
  | upload (method chat_id : String) (caption : Option String)
      (fieldName buffer filename : String)
  | sendByUrl (method chat_id jsonField url caption : String)
deriving DecidableEq

/-- The HTTP response returned to the caller: status code, the `ok` flag and
optional `error` code of the JSON body, and the optional `Allow` header. -/
structure Response where
  status : Nat
  ok : Bool
  error : Option String
  allow : Option String
deriving DecidableEq

/-- JS `s.startsWith(p)`, implemented on the character lists so it
kernel-evaluates. -/
def jsStartsWith (s p : String) : Bool :=
  p.data.isPrefixOf s.data

/-- Helper `isDataUrl`: `typeof s === 'string' && s.startsWith('data:')`
(the embedding only models string-valued fields, so only the prefix test
remains). -/
def isDataUrl (s : String) : Bool :=
  jsStartsWith s "data:"

/-- JS line terminators, the characters `.` does not match in a regex
without the `s` flag. -/
def isJsLineTerminator (c : Char) : Bool :=
  c == '\n' || c == '\r' || c == Char.ofNat 0x2028 || c == Char.ofNat 0x2029

/-- The regex match `dataUrl.match(/^data:([^;]+);base64,(.*)$/)`, returning
the two capture groups (media type, base64 payload). `([^;]+)` is the
nonempty run of characters before the first `;` (a negated class also
matches line terminators); the literal `;base64,` must follow it; `(.*)$`
takes everything up to the end of the string but fails on any line
terminator, since `.` excludes them. -/
def dataUrlMatch (s : String) : Option (String × String) :=
  if jsStartsWith s "data:" then
    let rest := s.data.drop 5
    let mimeL := rest.takeWhile (fun c => c ≠ ';')
    let after := rest.dropWhile (fun c => c ≠ ';')
    if mimeL ≠ [] ∧ ";base64,".data.isPrefixOf after then
      let b64L := after.drop 8
      if b64L.any isJsLineTerminator then none
      else some (String.mk mimeL, String.mk b64L)
    else none
  else none

/-- JS `str.split(sep)` for a one-character separator. -/
def splitChar (sep : Char) : List Char → List (List Char)
  | [] => [[]]
  | c :: cs =>
    if c = sep then [] :: splitChar sep cs
    else
      match splitChar sep cs with
      | [] => [[c]]
      | h :: t => (c :: h) :: t

/-- Extension derivation:
`mime.split('/')[1] ? mime.split('/')[1].split('+')[0] : 'bin'`.
The subtype (if present and nonempty) is truncated at its first `+`;
otherwise the extension falls back to `bin`. -/
def mimeExt (mime : String) : String :=
  match (splitChar '/' mime.data).get? 1 with
  | some sub => if sub ≠ [] then String.mk ((splitChar '+' sub).headD []) else "bin"
  | none => "bin"

/-- Result of `parseDataUrl`: `{ buffer, filename, mime }`. The handler
never inspects the decoded bytes, it only forwards them, so `buffer`
carries the base64 source text that `Buffer.from(b64, 'base64')` decodes. -/
structure ParsedDataUrl where
  buffer : String
  filename : String
  mime : String
deriving DecidableEq

/-- Helper `parseDataUrl(dataUrl, fallbackName)`: regex-match the data URL,
then derive the filename `fallbackName + '.' + ext` from the media type. -/
def parseDataUrl (dataUrl fallbackName : String) : Option ParsedDataUrl :=
  match dataUrlMatch dataUrl with
  | none => none
  | some (mime, b64) =>
    some ⟨b64, fallbackName ++ "." ++ mimeExt mime, mime⟩

/-- Helper `uploadFile`: a multipart form with `chat_id`, the caption when
truthy (nonempty), and the buffer appended under `fieldName` with the given
filename, POSTed to the given bot-API method. `mime` is accepted but never
placed into the form, as in the source. -/
def uploadFile (CHAT_ID buffer filename mime method fieldName caption : String) :
    Call :=
  Call.upload method CHAT_ID (if caption = "" then none else some caption)
    fieldName buffer filename

/-- The calls issued by the `foto_ktp_url` block: nothing when the field is
falsy; for a data URL, a `sendPhoto` multipart upload with field `photo`
when parsing succeeds and nothing when it fails; otherwise a `sendPhoto`
by-reference call with the URL passed through. -/
def fotoKtpCalls (CHAT_ID : String) (v : Option String) : List Call :=
  match v with
  | none => []
  | some u =>
    if u = "" then []
    else if isDataUrl u then
      match parseDataUrl u "foto_ktp" with
      | some parsed =>
        [uploadFile CHAT_ID parsed.buffer parsed.filename parsed.mime
          "sendPhoto" "photo" "📄 Foto KTP"]
      | none => []
    else
      [Call.sendByUrl "sendPhoto" CHAT_ID "photo" u "📄 Foto KTP"]

/-- The calls issued by the `surat_keterangan_url` block: like
`fotoKtpCalls` except that a parsed data URL with an `image/`-prefixed
media type uploads via `sendPhoto` (field `photo`) while any other media
type uploads via `sendDocument` (field `document`), and a remote URL always
goes through the `sendDocument` by-reference call. -/
def suratKeteranganCalls (CHAT_ID : String) (v : Option String) : List Call :=
  match v with
  | none => []
  | some u =>
    if u = "" then []
    else if isDataUrl u then
      match parseDataUrl u "surat_keterangan" with
      | some parsed =>
        if jsStartsWith parsed.mime "image/" then
          [uploadFile CHAT_ID parsed.buffer parsed.filename parsed.mime
            "sendPhoto" "photo" "📎 Surat Keterangan"]
        else
          [uploadFile CHAT_ID parsed.buffer parsed.filename parsed.mime
            "sendDocument" "document" "📎 Surat Keterangan"]
      | none => []
    else
      [Call.sendByUrl "sendDocument" CHAT_ID "document" u "📎 Surat Keterangan"]

/-- The `lines` array of the text summary, after applying the destructuring
defaults: `'-'` for every textual field, `new Date().toISOString()` for the
submission timestamp, and `'Menunggu'` for the status. -/
def summaryLines (host : Host) (p : Payload) : List String :=
  let nama_lengkap := p.nama_lengkap.getD "-"
  let nik := p.nik.getD "-"
  let tempat_lahir := p.tempat_lahir.getD "-"
  let tanggal_lahir := p.tanggal_lahir.getD "-"
  let alamat := p.alamat.getD "-"
  let no_telepon := p.no_telepon.getD "-"
  let email := p.email.getD "-"
  let alasan := p.alasan.getD "-"
  let tanggal_pengajuan := p.tanggal_pengajuan.getD host.nowISO
  let status := p.status.getD "Menunggu"
  [ "📝 <b>Pengajuan Izin Baru</b>",
    "",
    "👤 <b>Nama</b>: " ++ nama_lengkap,
    "🆔 <b>NIK</b>: " ++ nik,
    "📍 <b>TTL</b>: " ++ tempat_lahir ++ ", " ++ tanggal_lahir,
    "🏠 <b>Alamat</b>: " ++ alamat,
    "📞 <b>Kontak</b>: " ++ no_telepon,
    "✉️ <b>Email</b>: " ++ email,
    "🗓️ <b>Tanggal Pengajuan</b>: " ++ host.toLocaleStringIdID tanggal_pengajuan,
    "🏷️ <b>Status</b>: " ++ status,
    "",
    "✍️ <b>Alasan</b>:\n" ++ alasan,
    "" ]

/-- The full summary text, `lines.join('\n')`. -/
def buildText (host : Host) (p : Payload) : String :=
  String.intercalate "\n" (summaryLines host p)

/-- The handler. Returns the list of outbound Telegram calls it issued (in
order) together with the HTTP response. Branches, in source order: the
405 method gate; the 500 `MISSING_ENV` gate on falsy secrets; the summary
`sendMessage` (recorded at issuance; if it throws, the top-level catch
returns 500 `SERVER_ERROR`; a protocol-level `ok: false` is only logged);
then the two attachment blocks, whose own failures are caught and logged
without affecting the call list or the response; finally `{ ok: true }`. -/
def handler (env : Env) (host : Host) (req : Req) : List Call × Response :=
  if req.method ≠ "POST" then
    ([], ⟨405, false, some "METHOD_NOT_ALLOWED", some "POST"⟩)
  else if !truthyOpt env.BOT_TOKEN || !truthyOpt env.CHAT_ID then
    ([], ⟨500, false, some "MISSING_ENV", none⟩)
  else
    let CHAT_ID := env.CHAT_ID.getD ""
    let p := req.body.getD emptyPayload
    let smCall := Call.sendMessage CHAT_ID (buildText host p) "HTML" true
    if host.sendMessageThrows then
      ([smCall], ⟨500, false, some "SERVER_ERROR", none⟩)
    else
      (smCall ::
        (fotoKtpCalls CHAT_ID p.foto_ktp_url ++
          suratKeteranganCalls CHAT_ID p.surat_keterangan_url),
       ⟨200, true, none, none⟩)

/-- A nonempty `data:`-prefixed string is what `isDataUrl` accepts, so a
data URL is never the empty string. -/
theorem isDataUrl_ne_empty {u : String} (h : isDataUrl u = true) : u ≠ "" := by
  intro he
  subst he
  exact absurd h (by decide)

/-- A successful regex match implies the `data:` prefix, hence `isDataUrl`. -/
theorem dataUrlMatch_isDataUrl {u : String} {x : String × String}
    (h : dataUrlMatch u = some x) : isDataUrl u = true := by
  by_cases hp : jsStartsWith u "data:"
  · simpa [isDataUrl] using hp
  · simp [dataUrlMatch, hp] at h

/-- C7: a request whose method is not POST is answered 405 with body
`{ ok: false, error: 'METHOD_NOT_ALLOWED' }` and an `Allow: POST` header,
and no outbound call is made. -/
theorem c7_method_not_allowed (env : Env) (host : Host) (req : Req)
    (hm : req.method ≠ "POST") :
    handler env host req = ([], ⟨405, false, some "METHOD_NOT_ALLOWED", some "POST"⟩) := by
  simp [handler, hm]

/-- Witness for C7 at a concrete GET request. -/
theorem c7_witness :
    handler ⟨some "tok", some "42"⟩ ⟨"2024-01-01T00:00:00.000Z", fun _ => "x", false, true⟩
      ⟨"GET", none⟩ = ([], ⟨405, false, some "METHOD_NOT_ALLOWED", some "POST"⟩) :=
  c7_method_not_allowed _ _ _ (by decide)

/-- C2: a POST request with either environment secret absent is answered
500 with error code `MISSING_ENV` and zero outbound calls. -/
theorem c2_missing_env (env : Env) (host : Host) (req : Req)
    (hm : req.method = "POST")
    (habs : env.BOT_TOKEN = none ∨ env.CHAT_ID = none) :
    handler env host req = ([], ⟨500, false, some "MISSING_ENV", none⟩) := by
  rcases habs with h | h <;> simp [handler, hm, truthyOpt, h]

/-- Witness for C2 with `BOT_TOKEN` absent. -/
theorem c2_witness :
    handler ⟨none, some "42"⟩ ⟨"2024-01-01T00:00:00.000Z", fun _ => "x", false, true⟩
      ⟨"POST", none⟩ = ([], ⟨500, false, some "MISSING_ENV", none⟩) :=
  c2_missing_env _ _ _ rfl (Or.inl rfl)

/-- C1: for a POST request with both secrets present and a non-throwing
summary send, an inline (`data:`-prefixed) attachment reference that does
not match `data:<media-type>;base64,<payload>` contributes no outbound call
in either attachment position, and the handler still responds 200 with
`{ ok: true }`. -/
theorem c1_unparseable_inline_skipped (env : Env) (host : Host) (req : Req)
    (u : String)
    (hm : req.method = "POST")
    (hb : truthyOpt env.BOT_TOKEN = true) (hc : truthyOpt env.CHAT_ID = true)
    (ht : host.sendMessageThrows = false)
    (hd : isDataUrl u = true) (hp : dataUrlMatch u = none) :
    fotoKtpCalls (env.CHAT_ID.getD "") (some u) = [] ∧
    suratKeteranganCalls (env.CHAT_ID.getD "") (some u) = [] ∧
    (handler env host req).2 = ⟨200, true, none, none⟩ := by
  refine ⟨?_, ?_, ?_⟩
  · simp [fotoKtpCalls, isDataUrl_ne_empty hd, hd, parseDataUrl, hp]
  · simp [suratKeteranganCalls, isDataUrl_ne_empty hd, hd, parseDataUrl, hp]
  · simp [handler, hm, hb, hc, ht]

/-- Witness for C1 at `data:image/png` (no `;base64,` part). -/
theorem c1_witness :
    fotoKtpCalls "42" (some "data:image/png") = [] ∧
    suratKeteranganCalls "42" (some "data:image/png") = [] ∧
    (handler ⟨some "tok", some "42"⟩
      ⟨"2024-01-01T00:00:00.000Z", fun _ => "x", false, true⟩
      ⟨"POST", some ⟨none, none, none, none, none, none, none, none,
        some "data:image/png", some "data:image/png", none, none⟩⟩).2 =
      ⟨200, true, none, none⟩ :=
  c1_unparseable_inline_skipped _ _ _ _ rfl (by decide) (by decide) rfl
    (by decide) (by decide)

/-- C3: for a POST request with both secrets present and a non-throwing
summary send, remote-URL attachments (truthy, not `data:`-prefixed) are
passed through unchanged: the identification photo goes out as a
`sendPhoto` by-reference call and the supporting document always as a
`sendDocument` by-reference call, with no local decoding — the full call
list is exactly the summary plus those two by-reference calls. -/
theorem c3_remote_url_passthrough (env : Env) (host : Host) (req : Req)
    (u v : String)
    (hm : req.method = "POST")
    (hb : truthyOpt env.BOT_TOKEN = true) (hc : truthyOpt env.CHAT_ID = true)
    (ht : host.sendMessageThrows = false)
    (hfoto : (req.body.getD emptyPayload).foto_ktp_url = some u)
    (hsurat : (req.body.getD emptyPayload).surat_keterangan_url = some v)
    (hu : u ≠ "") (hv : v ≠ "")
    (hdu : isDataUrl u = false) (hdv : isDataUrl v = false) :
    handler env host req =
      ([Call.sendMessage (env.CHAT_ID.getD "")
          (buildText host (req.body.getD emptyPayload)) "HTML" true,
        Call.sendByUrl "sendPhoto" (env.CHAT_ID.getD "") "photo" u "📄 Foto KTP",
        Call.sendByUrl "sendDocument" (env.CHAT_ID.getD "") "document" v
          "📎 Surat Keterangan"],
       ⟨200, true, none, none⟩) := by
  simp [handler, hm, hb, hc, ht, hfoto, hsurat, fotoKtpCalls,
    suratKeteranganCalls, hu, hv, hdu, hdv]

/-- Witness for C3 with a photo URL and a document URL. -/
theorem c3_witness :
    handler ⟨some "tok", some "42"⟩
      ⟨"2024-01-01T00:00:00.000Z", fun _ => "x", false, true⟩
      ⟨"POST", some ⟨none, none, none, none, none, none, none, none,
        some "https://example.com/a.jpg", some "https://example.com/b.pdf",
        none, none⟩⟩ =
      ([Call.sendMessage "42"
          (buildText ⟨"2024-01-01T00:00:00.000Z", fun _ => "x", false, true⟩
            ⟨none, none, none, none, none, none, none, none,
              some "https://example.com/a.jpg", some "https://example.com/b.pdf",
              none, none⟩) "HTML" true,
        Call.sendByUrl "sendPhoto" "42" "photo" "https://example.com/a.jpg"
          "📄 Foto KTP",
        Call.sendByUrl "sendDocument" "42" "document" "https://example.com/b.pdf"
          "📎 Surat Keterangan"],
       ⟨200, true, none, none⟩) :=
  c3_remote_url_passthrough _ _ _ _ _ rfl (by decide) (by decide) rfl rfl rfl
    (by decide) (by decide) (by decide) (by decide)

/-- C4: when the summary `sendMessage` reports protocol-level failure
(`ok: false` in its response body) without throwing, the handler still
issues both attachment call lists exactly as computed from the payload and
still responds 200 with `{ ok: true }`. -/
theorem c4_summary_failure_not_surfaced (env : Env) (host : Host) (req : Req)
    (hm : req.method = "POST")
    (hb : truthyOpt env.BOT_TOKEN = true) (hc : truthyOpt env.CHAT_ID = true)
    (ht : host.sendMessageThrows = false)
    (hok : host.sendMessageOk = false) :
    (handler env host req).1 =
      Call.sendMessage (env.CHAT_ID.getD "")
          (buildText host (req.body.getD emptyPayload)) "HTML" true ::
        (fotoKtpCalls (env.CHAT_ID.getD "")
            (req.body.getD emptyPayload).foto_ktp_url ++
          suratKeteranganCalls (env.CHAT_ID.getD "")
            (req.body.getD emptyPayload).surat_keterangan_url) ∧
    (handler env host req).2 = ⟨200, true, none, none⟩ := by
  constructor <;> simp [handler, hm, hb, hc, ht]

/-- Witness for C4 with a failing summary send and one attachment. -/
theorem c4_witness :
    (handler ⟨some "tok", some "42"⟩
      ⟨"2024-01-01T00:00:00.000Z", fun _ => "x", false, false⟩
      ⟨"POST", some ⟨none, none, none, none, none, none, none, none,
        some "https://example.com/a.jpg", none, none, none⟩⟩).1 =
      Call.sendMessage "42"
          (buildText ⟨"2024-01-01T00:00:00.000Z", fun _ => "x", false, false⟩
            ⟨none, none, none, none, none, none, none, none,
              some "https://example.com/a.jpg", none, none, none⟩) "HTML" true ::
        (fotoKtpCalls "42" (some "https://example.com/a.jpg") ++
          suratKeteranganCalls "42" none) ∧
    (handler ⟨some "tok", some "42"⟩
      ⟨"2024-01-01T00:00:00.000Z", fun _ => "x", false, false⟩
      ⟨"POST", some ⟨none, none, none, none, none, none, none, none,
        some "https://example.com/a.jpg", none, none, none⟩⟩).2 =
      ⟨200, true, none, none⟩ :=
  c4_summary_failure_not_surfaced _ _ _ rfl (by decide) (by decide) rfl rfl

/-- C5: an inline identification-photo reference with declared media type
`image/jpeg` parses to the filename `foto_ktp.jpeg` (extension = subtype
with any `+`-suffix stripped) and is uploaded via `sendPhoto` with the
multipart field named `photo`. -/
theorem c5_inline_jpeg_photo (cid u b64 : String)
    (h : dataUrlMatch u = some ("image/jpeg", b64)) :
    parseDataUrl u "foto_ktp" = some ⟨b64, "foto_ktp.jpeg", "image/jpeg"⟩ ∧
    fotoKtpCalls cid (some u) =
      [Call.upload "sendPhoto" cid (some "📄 Foto KTP") "photo" b64
        "foto_ktp.jpeg"] := by
  have hd : isDataUrl u = true := dataUrlMatch_isDataUrl h
  have hne : u ≠ "" := isDataUrl_ne_empty hd
  have hp : parseDataUrl u "foto_ktp" = some ⟨b64, "foto_ktp.jpeg", "image/jpeg"⟩ := by
    simp [parseDataUrl, h]
    decide
  exact ⟨hp, by simp [fotoKtpCalls, hne, hd, hp, uploadFile]⟩

/-- Witness for C5 at a concrete JPEG data URL. -/
theorem c5_witness :
    parseDataUrl "data:image/jpeg;base64,QUJD" "foto_ktp" =
      some ⟨"QUJD", "foto_ktp.jpeg", "image/jpeg"⟩ ∧
    fotoKtpCalls "42" (some "data:image/jpeg;base64,QUJD") =
      [Call.upload "sendPhoto" "42" (some "📄 Foto KTP") "photo" "QUJD"
        "foto_ktp.jpeg"] :=
  c5_inline_jpeg_photo _ _ _ (by decide)

/-- C6: an inline supporting-document reference is dispatched on its
declared media type: an `image/`-prefixed type uploads via `sendPhoto`
(field `photo`), any other type uploads via `sendDocument`
(field `document`). -/
theorem c6_inline_document_dispatch (cid u mime b64 : String)
    (h : dataUrlMatch u = some (mime, b64)) :
    suratKeteranganCalls cid (some u) =
      if jsStartsWith mime "image/" then
        [Call.upload "sendPhoto" cid (some "📎 Surat Keterangan") "photo" b64
          ("surat_keterangan" ++ "." ++ mimeExt mime)]
      else
        [Call.upload "sendDocument" cid (some "📎 Surat Keterangan") "document"
          b64 ("surat_keterangan" ++ "." ++ mimeExt mime)] := by
  have hd : isDataUrl u = true := dataUrlMatch_isDataUrl h
  have hne : u ≠ "" := isDataUrl_ne_empty hd
  by_cases hi : jsStartsWith mime "image/" <;>
    simp [suratKeteranganCalls, hne, hd, parseDataUrl, h, hi, uploadFile]

/-- Witness for C6 at a concrete PDF data URL, landing on `sendDocument`. -/
theorem c6_witness :
    suratKeteranganCalls "42" (some "data:application/pdf;base64,QUJD") =
      [Call.upload "sendDocument" "42" (some "📎 Surat Keterangan") "document"
        "QUJD" "surat_keterangan.pdf"] :=
  (c6_inline_document_dispatch "42" _ "application/pdf" "QUJD" (by decide)).trans
    (by decide)

/-- C8: a POST request with both secrets present, a non-throwing summary
send and both attachment fields absent makes exactly one outbound call,
the summary `sendMessage`, and is answered 200 with `{ ok: true }`. -/
theorem c8_no_attachments_single_call (env : Env) (host : Host) (req : Req)
    (hm : req.method = "POST")
    (hb : truthyOpt env.BOT_TOKEN = true) (hc : truthyOpt env.CHAT_ID = true)
    (ht : host.sendMessageThrows = false)
    (hfoto : (req.body.getD emptyPayload).foto_ktp_url = none)
    (hsurat : (req.body.getD emptyPayload).surat_keterangan_url = none) :
    handler env host req =
      ([Call.sendMessage (env.CHAT_ID.getD "")
          (buildText host (req.body.getD emptyPayload)) "HTML" true],
       ⟨200, true, none, none⟩) := by
  simp [handler, hm, hb, hc, ht, hfoto, hsurat, fotoKtpCalls,
    suratKeteranganCalls]

/-- Witness for C8 with a fully populated textual payload and no
attachments. -/
theorem c8_witness :
    handler ⟨some "tok", some "42"⟩
      ⟨"2024-01-01T00:00:00.000Z", fun _ => "x", false, true⟩
      ⟨"POST", some ⟨some "Budi", some "123", some "Bandung", some "2000-01-01",
        some "Jl. Mawar 1", some "0812", some "b@x.id", some "Cuti", none, none,
        some "2024-01-02T03:04:05.000Z", some "Diproses"⟩⟩ =
      ([Call.sendMessage "42"
          (buildText ⟨"2024-01-01T00:00:00.000Z", fun _ => "x", false, true⟩
            ⟨some "Budi", some "123", some "Bandung", some "2000-01-01",
              some "Jl. Mawar 1", some "0812", some "b@x.id", some "Cuti", none,
              none, some "2024-01-02T03:04:05.000Z", some "Diproses"⟩) "HTML"
          true],
       ⟨200, true, none, none⟩) :=
  c8_no_attachments_single_call _ _ _ rfl (by decide) (by decide) rfl rfl rfl

/-- C9: with every optional field omitted, the composed summary lines carry
the placeholder `-` for every textual field (name, NIK, birthplace and
birth date, address, phone, email, reason) and the pending status label
`Menunggu`; the timestamp line renders the locale formatting of the
request-receipt time. -/
theorem c9_default_placeholders (host : Host) :
    summaryLines host emptyPayload =
      [ "📝 <b>Pengajuan Izin Baru</b>",
        "",
        "👤 <b>Nama</b>: -",
        "🆔 <b>NIK</b>: -",
        "📍 <b>TTL</b>: -, -",
        "🏠 <b>Alamat</b>: -",
        "📞 <b>Kontak</b>: -",
        "✉️ <b>Email</b>: -",
        "🗓️ <b>Tanggal Pengajuan</b>: " ++ host.toLocaleStringIdID host.nowISO,
        "🏷️ <b>Status</b>: Menunggu",
        "",
        "✍️ <b>Alasan</b>:\n-",
        "" ] := rfl

/-- C10: any truthy attachment string that does not start with `data:` is
treated as a remote URL — never skipped, never decoded — and forwarded
unchanged in the by-reference call (`sendPhoto` for the identification
photo, `sendDocument` for the supporting document), even when it is not a
well-formed URL. -/
theorem c10_non_dataurl_truthy_passthrough (cid u : String)
    (hne : u ≠ "") (hd : isDataUrl u = false) :
    fotoKtpCalls cid (some u) =
      [Call.sendByUrl "sendPhoto" cid "photo" u "📄 Foto KTP"] ∧
    suratKeteranganCalls cid (some u) =
      [Call.sendByUrl "sendDocument" cid "document" u "📎 Surat Keterangan"] := by
  constructor <;> simp [fotoKtpCalls, suratKeteranganCalls, hne, hd]

/-- Witness for C10 at the string `not a url`, which is not a well-formed
URL. -/
theorem c10_witness :
    fotoKtpCalls "42" (some "not a url") =
      [Call.sendByUrl "sendPhoto" "42" "photo" "not a url" "📄 Foto KTP"] ∧
    suratKeteranganCalls "42" (some "not a url") =
      [Call.sendByUrl "sendDocument" "42" "document" "not a url"
        "📎 Surat Keterangan"] :=
  c10_non_dataurl_truthy_passthrough _ _ (by decide) (by decide)

end Telegram
